import Mathlib

/-!
Verification of the Kotlin code generator
(`src/atcodertools/codegen/code_generators/kotlin.py`) against its
natural-language specification.  The format data model
(`Format`/`Pattern`/`Variable`/`Type`), the style configuration and the
problem constants live outside `src/` and are modelled from the spec;
everything else is translated directly from `kotlin.py`.
-/

/-- Modelled from the spec: the closed enum of semantic types
(`fmtprediction.models.type.Type`, not under `src/`): float, int, string. -/
inductive VType where
  | float
  | int
  | str
deriving DecidableEq

/-- Modelled from the spec: a Dimension (an axis of a Variable's shape, from
the prediction model, not under `src/`) carries a length expression;
`get_length()` renders it as a source-text expression string. -/
structure Dimension where
  get_length : String
deriving DecidableEq

/-- Modelled from the spec: a Variable (`fmtprediction.models.variable`, not
under `src/`) has a name, a semantic type and zero or more index dimensions;
`dim_num()` is the number of indices.  The indices are held as a list so that
out-of-contract shapes (`dim_num() > 2`, spec section 7 UnsupportedShape and
Scenario 5) are representable; `first_index` and `second_index` are the first
and the second element when present. -/
structure Variable where
  name : String
  type : VType
  indices : List Dimension
deriving DecidableEq

/-- Modelled from the spec: `dim_num()` is the number of non-null indices. -/
def Variable.dim_num (v : Variable) : Nat :=
  v.indices.length

/-- Modelled from the spec: the first index dimension, when present. -/
def Variable.first_index (v : Variable) : Option Dimension :=
  v.indices[0]?

/-- Modelled from the spec: the second index dimension, when present. -/
def Variable.second_index (v : Variable) : Option Dimension :=
  v.indices[1]?

/-- Modelled from the spec: a Pattern (`fmtprediction.models.format`, not under
`src/`) owns an ordered sequence of Variables; the known variants are
SingularPattern, ParallelPattern and TwoDimensionalPattern.  The `other`
constructor stands for a Pattern subclass outside those three, which Python's
open `isinstance` dispatch in `_render_pattern` admits. -/
inductive Pattern where
  | singular (vars : List Variable)
  | parallel (vars : List Variable)
  | twoDimensional (vars : List Variable)
  | other (vars : List Variable)
deriving DecidableEq

/-- Modelled from the spec: `Pattern.all_vars()` returns the pattern's ordered
variable sequence. -/
def Pattern.all_vars : Pattern → List Variable
  | .singular vs => vs
  | .parallel vs => vs
  | .twoDimensional vs => vs
  | .other vs => vs

/-- Modelled from the spec: a Format is an ordered sequence of Patterns. -/
structure Format where
  sequence : List Pattern
deriving DecidableEq

/-- Modelled from the spec: `Format.all_vars()` is the flattened,
order-preserving concatenation of every Pattern's variables. -/
def Format.all_vars (f : Format) : List Variable :=
  (f.sequence.map Pattern.all_vars).flatten

/-- Modelled from the spec: the style configuration exposes `indent(level)`,
the whitespace string for `level` nesting units. -/
structure CodeStyleConfig where
  indent : Nat → String

/-- Exceptions the generator can raise: `NotImplementedError` from the explicit
`raise` sites in `kotlin.py`, `IndexError` from `pattern.all_vars()[0]` on an
empty pattern, `AttributeError` from calling `get_length()` on an absent
(None) index. -/
inductive CodegenError where
  | notImplemented
  | indexError
  | attributeError
deriving DecidableEq

/-- Embeds `KotlinCodeGenerator._convert_type` (kotlin.py lines 38-46); total
on the closed Type enum, so the defensive `raise NotImplementedError` arm is
unreachable. -/
def convert_type : VType → String
  | .float => "Double"
  | .int => "Long"
  | .str => "String"

/-- Embeds the `for _ in range(var.dim_num())` loop of
`_get_declaration_type`: wrap the base type name `n` times in `Array<...>`. -/
def wrap_array : Nat → String → String
  | 0, s => s
  | n + 1, s => wrap_array n ("Array<" ++ s ++ ">")

/-- Embeds `KotlinCodeGenerator._get_declaration_type` (kotlin.py lines
48-56). -/
def get_declaration_type (v : Variable) : String :=
  wrap_array v.dim_num (convert_type v.type)

/-- Embeds `KotlinCodeGenerator._actual_arguments` (kotlin.py lines 58-62). -/
def actual_arguments (f : Format) : String :=
  String.intercalate ", " (f.all_vars.map (fun v => v.name))

/-- Embeds `KotlinCodeGenerator._formal_arguments` (kotlin.py lines 64-73). -/
def formal_arguments (f : Format) : String :=
  String.intercalate ", "
    (f.all_vars.map (fun v => v.name ++ ": " ++ get_declaration_type v))

/-- Embeds `KotlinCodeGenerator._get_default_value_for_type` (kotlin.py lines
75-86); total on the closed Type enum. -/
def get_default_value_for_type : VType → String
  | .float => "0.0"
  | .int => "0L"
  | .str => "\"\""

/-- Embeds `KotlinCodeGenerator._generate_declaration` (kotlin.py lines
88-110). -/
def generate_declaration (v : Variable) : Except CodegenError String :=
  if v.dim_num > 2 then
    .error .notImplemented
  else if v.dim_num = 0 then
    .ok ("var " ++ v.name ++ ": " ++ get_declaration_type v)
  else
    let dims := [v.second_index, v.first_index].filterMap id
    let declaration := dims.foldl
      (fun acc dim => "Array((" ++ dim.get_length ++ ").toInt())" ++ "\x7b" ++ acc ++ "\x7d")
      (get_default_value_for_type v.type)
    .ok ("val " ++ v.name ++ " = " ++ declaration)

/-- Embeds `KotlinCodeGenerator._get_var_name` (kotlin.py lines 123-129):
append one bracketed loop-counter index per dimension, `i` then `j`. -/
def get_var_name (v : Variable) : String :=
  (["i", "j"].take v.dim_num).foldl
    (fun name index_variable => name ++ "[(" ++ index_variable ++ ").toInt()]")
    v.name

/-- Embeds `KotlinCodeGenerator._input_code_for_var` (kotlin.py lines 112-121);
total on the closed Type enum. -/
def input_code_for_var (v : Variable) : String :=
  match v.type with
  | .float => get_var_name v ++ " = sc.nextDouble()"
  | .int => get_var_name v ++ " = sc.nextLong()"
  | .str => get_var_name v ++ " = sc.next()"

/-- Embeds `KotlinCodeGenerator._wrap_with_loop` (kotlin.py lines 157-166). -/
def wrap_with_loop (cfg : CodeStyleConfig) (lines : List String)
    (loop_variable : String) (length : String) : List String :=
  ("for (" ++ loop_variable ++ " in 0 until " ++ length ++ ") \x7b") ::
    (lines.map (fun line => cfg.indent 1 ++ line) ++ ["\x7d"])

/-- Embeds the list comprehension `[self._generate_declaration(var) for var in
pattern.all_vars()]` (kotlin.py line 132): declarations are synthesized left
to right and the first raised error propagates. -/
def generate_declarations : List Variable → Except CodegenError (List String)
  | [] => .ok []
  | v :: vs =>
    match generate_declaration v with
    | .error e => .error e
    | .ok d =>
      match generate_declarations vs with
      | .error e => .error e
      | .ok ds => .ok (d :: ds)

/-- Embeds `KotlinCodeGenerator._render_pattern` (kotlin.py lines 131-155):
the declarations are synthesized first (a raised error propagates), then the
representative variable is `pattern.all_vars()[0]` (IndexError when the
pattern is empty), and the isinstance chain appends the read statements; a
pattern outside the three known variants falls through and only the
declarations are returned. -/
def render_pattern (cfg : CodeStyleConfig) (pattern : Pattern) :
    Except CodegenError (List String) :=
  match generate_declarations pattern.all_vars with
  | .error e => .error e
  | .ok lines =>
    match pattern.all_vars with
    | [] => .error .indexError
    | representative :: _ =>
      match pattern with
      | .singular _ => .ok (lines ++ [input_code_for_var representative])
      | .parallel vs =>
        match representative.first_index with
        | none => .error .attributeError
        | some d =>
          .ok (lines ++ wrap_with_loop cfg (vs.map input_code_for_var) "i" d.get_length)
      | .twoDimensional vs =>
        match representative.second_index with
        | none => .error .attributeError
        | some d2 =>
          match representative.first_index with
          | none => .error .attributeError
          | some d1 =>
            .ok (lines ++
              wrap_with_loop cfg
                (wrap_with_loop cfg (vs.map input_code_for_var) "j" d2.get_length)
                "i" d1.get_length)
      | .other _ => .ok lines

/-- Embeds the comprehension and the `sum([...], [])` flattening in
`KotlinCodeGenerator._input_part` (kotlin.py lines 30-36): per-pattern line
lists are concatenated in sequence order. -/
def render_patterns (cfg : CodeStyleConfig) : List Pattern → Except CodegenError (List String)
  | [] => .ok []
  | p :: ps =>
    match render_pattern cfg p with
    | .error e => .error e
    | .ok l =>
      match render_patterns cfg ps with
      | .error e => .error e
      | .ok ls => .ok (l ++ ls)

/-- Embeds `KotlinCodeGenerator._input_part` (kotlin.py lines 30-36). -/
def input_part (cfg : CodeStyleConfig) (f : Format) : Except CodegenError String :=
  match render_patterns cfg f.sequence with
  | .error e => .error e
  | .ok lines => .ok (String.intercalate ("\n" ++ cfg.indent 1) lines)

/-- The parameter dictionary built by `generate_parameters` (kotlin.py lines
19-28): `prediction_success` plus the three optional code fragments. -/
structure CodeParameters where
  prediction_success : Bool
  formal_arguments : Option String
  actual_arguments : Option String
  input_part : Option String
deriving DecidableEq

/-- Embeds `KotlinCodeGenerator.generate_parameters` (kotlin.py lines 19-28). -/
def generate_parameters (cfg : CodeStyleConfig) :
    Option Format → Except CodegenError CodeParameters
  | none => .ok ⟨false, none, none, none⟩
  | some f =>
    match input_part cfg f with
    | .error e => .error e
    | .ok ip =>
      .ok ⟨true, some (formal_arguments f), some (actual_arguments f), some ip⟩

/-- Modelled from the spec: the pass-through problem constants (modulus,
yes-literal, no-literal) carried by `args.constants` (not under `src/`). -/
structure ProblemConstants where
  mod : String
  yes_str : String
  no_str : String
deriving DecidableEq

/-- Modelled from the spec: the argument bag handed to `main` (`CodeGenArgs`,
not under `src/`): template text, optional predicted format, problem constants
and style configuration. -/
structure CodeGenArgs where
  template : String
  format : Option Format
  constants : ProblemConstants
  config : CodeStyleConfig

/-- The template context assembled by `main` (kotlin.py lines 169-181) for the
external `render` step: the three problem constants passed as keyword
arguments plus the splatted code parameters. -/
structure TemplateContext where
  mod : String
  yes_str : String
  no_str : String
  params : CodeParameters
deriving DecidableEq

/-- Embeds the `render` call-site in `main` (kotlin.py lines 169-181): the
context `main` hands to the external template renderer.  An exception from
`generate_parameters` propagates and `render` is never reached. -/
def main_template_context (args : CodeGenArgs) : Except CodegenError TemplateContext :=
  match generate_parameters args.config args.format with
  | .error e => .error e
  | .ok ps =>
    .ok ⟨args.constants.mod, args.constants.yes_str, args.constants.no_str, ps⟩

/-- Specification-side definition, following the spec's words (sections 4.2
and 4.3): the back end's readExpression for each semantic type, to be compared
with the right-hand sides produced by `input_code_for_var`. -/
def spec_read_expression : VType → String
  | .float => "sc.nextDouble()"
  | .int => "sc.nextLong()"
  | .str => "sc.next()"

/-- Observable on rendered lines: a line is a read-assignment statement when
it carries an assignment and is neither a loop header, a loop closer nor a
container declaration — it contains the character `=` and no brace. -/
def is_read_line (s : String) : Bool :=
  s.data.contains '=' && !s.data.contains '\x7b' && !s.data.contains '\x7d'

/-- A string free of the characters `=`, `\x7b` and `\x7d`; identifiers and
whitespace indent units have this property. -/
def clean_token (s : String) : Bool :=
  !s.data.contains '=' && !s.data.contains '\x7b' && !s.data.contains '\x7d'

/-- The number of leading whitespace characters of a rendered line, used to
compare indentation depths. -/
def leading_whitespace (s : String) : Nat :=
  (s.data.takeWhile (fun c => c == ' ' || c == '\t')).length

theorem generate_declaration_dim_gt (v : Variable) (h : 2 < v.dim_num) :
    generate_declaration v = .error .notImplemented := by
  unfold generate_declaration
  rw [if_pos h]

theorem generate_declaration_dim_le (v : Variable) (h : v.dim_num ≤ 2) :
    ∃ s, generate_declaration v = .ok s := by
  unfold generate_declaration
  rw [if_neg (by omega)]
  split
  · exact ⟨_, rfl⟩
  · exact ⟨_, rfl⟩

theorem generate_declaration_error_eq {v : Variable} {e : CodegenError}
    (h : generate_declaration v = .error e) : e = .notImplemented := by
  unfold generate_declaration at h
  by_cases hd : 2 < v.dim_num
  · rw [if_pos hd] at h
    injection h with h1
    exact h1.symm
  · rw [if_neg hd] at h
    split at h <;> simp at h

theorem generate_declarations_ok_forall : ∀ (l : List Variable) (ds : List String),
    generate_declarations l = .ok ds →
    ∀ v ∈ l, ∃ s, generate_declaration v = .ok s := by
  intro l
  induction l with
  | nil =>
    intro ds h v hv
    simp at hv
  | cons x xs ih =>
    intro ds h v hv
    unfold generate_declarations at h
    cases hx : generate_declaration x with
    | error e =>
      rw [hx] at h
      exact Except.noConfusion h
    | ok d =>
      rw [hx] at h
      cases hxs : generate_declarations xs with
      | error e =>
        rw [hxs] at h
        exact Except.noConfusion h
      | ok ds2 =>
        rcases List.mem_cons.mp hv with rfl | hv2
        · exact ⟨d, hx⟩
        · exact ih ds2 hxs v hv2

theorem generate_declarations_error_exists : ∀ (l : List Variable) (e : CodegenError),
    generate_declarations l = .error e →
    ∃ v ∈ l, generate_declaration v = .error e := by
  intro l
  induction l with
  | nil =>
    intro e h
    exact Except.noConfusion h
  | cons x xs ih =>
    intro e h
    unfold generate_declarations at h
    cases hx : generate_declaration x with
    | error e2 =>
      rw [hx] at h
      injection h with h1
      exact ⟨x, List.mem_cons_self x xs, h1 ▸ hx⟩
    | ok d =>
      rw [hx] at h
      cases hxs : generate_declarations xs with
      | error e2 =>
        rw [hxs] at h
        injection h with h1
        obtain ⟨v, hv, hve⟩ := ih e2 hxs
        exact ⟨v, List.mem_cons_of_mem x hv, h1 ▸ hve⟩
      | ok ds2 =>
        rw [hxs] at h
        exact Except.noConfusion h

theorem generate_declarations_ok_of_forall : ∀ (l : List Variable),
    (∀ v ∈ l, ∃ s, generate_declaration v = .ok s) →
    ∃ ds, generate_declarations l = .ok ds := by
  intro l
  induction l with
  | nil =>
    intro _
    exact ⟨[], rfl⟩
  | cons x xs ih =>
    intro h
    obtain ⟨s, hs⟩ := h x (List.mem_cons_self x xs)
    obtain ⟨ds, hds⟩ := ih (fun v hv => h v (List.mem_cons_of_mem x hv))
    refine ⟨s :: ds, ?_⟩
    unfold generate_declarations
    rw [hs, hds]

theorem generate_declarations_mem : ∀ (l : List Variable) (ds : List String),
    generate_declarations l = .ok ds →
    ∀ d ∈ ds, ∃ v ∈ l, generate_declaration v = .ok d := by
  intro l
  induction l with
  | nil =>
    intro ds h d hd
    unfold generate_declarations at h
    injection h with h1
    subst h1
    simp at hd
  | cons x xs ih =>
    intro ds h d hd
    unfold generate_declarations at h
    cases hx : generate_declaration x with
    | error e =>
      rw [hx] at h
      exact Except.noConfusion h
    | ok d0 =>
      rw [hx] at h
      cases hxs : generate_declarations xs with
      | error e =>
        rw [hxs] at h
        exact Except.noConfusion h
      | ok ds2 =>
        rw [hxs] at h
        injection h with h1
        subst h1
        rcases List.mem_cons.mp hd with rfl | hd2
        · exact ⟨x, List.mem_cons_self x xs, hx⟩
        · obtain ⟨v, hv, hvd⟩ := ih ds2 hxs d hd2
          exact ⟨v, List.mem_cons_of_mem x hv, hvd⟩

/-- C8: when the Format is absent, `generate_parameters` returns normally with
exactly the record whose `prediction_success` is false and whose three code
fragments are all absent. -/
theorem c8_absent_format (cfg : CodeStyleConfig) :
    generate_parameters cfg none =
      .ok { prediction_success := false, formal_arguments := none,
            actual_arguments := none, input_part := none } := rfl

/-- C3 counterexample: a pattern outside the three known variants, holding one
scalar int variable, renders without any error: `_render_pattern` falls
through its isinstance chain and returns just the declaration line, so the
claimed UnsupportedPattern failure does not happen. -/
theorem c3_counterexample :
    render_pattern ⟨fun _ => "    "⟩ (.other [⟨"N", .int, []⟩]) =
      .ok ["var N: Long"] := rfl

/-- C3 (amended): rendering a Pattern whose variant is outside
\x7bSingular, Parallel, TwoDimensional\x7d does not fail: it silently returns
exactly the declaration lines, with every read statement omitted. -/
theorem c3_other_pattern_silently_partial (cfg : CodeStyleConfig)
    (v : Variable) (vs : List Variable)
    (h : ∀ w ∈ v :: vs, w.dim_num ≤ 2) :
    ∃ decls, generate_declarations (v :: vs) = .ok decls ∧
      render_pattern cfg (.other (v :: vs)) = .ok decls := by
  obtain ⟨ds, hds⟩ := generate_declarations_ok_of_forall (v :: vs)
    (fun w hw => generate_declaration_dim_le w (h w hw))
  refine ⟨ds, hds, ?_⟩
  unfold render_pattern
  simp only [Pattern.all_vars, hds]

/-- C3 witness: the amended statement evaluated on a concrete one-variable
pattern of the unknown variant. -/
theorem c3_witness :
    ∃ decls,
      generate_declarations [⟨"N", VType.int, []⟩] = .ok decls ∧
      render_pattern ⟨fun _ => "  "⟩ (.other [⟨"N", VType.int, []⟩]) = .ok decls :=
  c3_other_pattern_silently_partial ⟨fun _ => "  "⟩ ⟨"N", VType.int, []⟩ []
    (by decide)

/-- C4: a Variable with more than two dimensions makes the declaration
synthesizer raise (NotImplementedError, the code's spelling of the spec's
UnsupportedShape) without emitting any text, and rendering a Pattern
containing such a Variable yields that error and no partial output. -/
theorem c4_dim_gt_two_unsupported (cfg : CodeStyleConfig) (p : Pattern)
    (v : Variable) (hmem : v ∈ p.all_vars) (hdim : 2 < v.dim_num) :
    generate_declaration v = .error .notImplemented ∧
    render_pattern cfg p = .error .notImplemented := by
  refine ⟨generate_declaration_dim_gt v hdim, ?_⟩
  cases hgd : generate_declarations p.all_vars with
  | error e =>
    obtain ⟨w, _, hwe⟩ := generate_declarations_error_exists p.all_vars e hgd
    have he : e = .notImplemented := generate_declaration_error_eq hwe
    unfold render_pattern
    rw [hgd, he]
  | ok ds =>
    obtain ⟨s, hs⟩ := generate_declarations_ok_forall p.all_vars ds hgd v hmem
    rw [generate_declaration_dim_gt v hdim] at hs
    exact Except.noConfusion hs

/-- C4 witness: a concrete three-dimensional variable inside a singular
pattern makes both the declaration synthesizer and the pattern renderer fail. -/
theorem c4_witness :
    generate_declaration ⟨"A", VType.int, [⟨"N"⟩, ⟨"N"⟩, ⟨"N"⟩]⟩ =
      .error .notImplemented ∧
    render_pattern ⟨fun _ => "  "⟩
        (.singular [⟨"A", VType.int, [⟨"N"⟩, ⟨"N"⟩, ⟨"N"⟩]⟩]) =
      .error .notImplemented :=
  c4_dim_gt_two_unsupported ⟨fun _ => "  "⟩
    (.singular [⟨"A", VType.int, [⟨"N"⟩, ⟨"N"⟩, ⟨"N"⟩]⟩])
    ⟨"A", VType.int, [⟨"N"⟩, ⟨"N"⟩, ⟨"N"⟩]⟩ (by decide) (by decide)

/-- C10: `_render_pattern` reads `pattern.all_vars()[0]` as the representative
variable, so rendering any Pattern with zero Variables fails with the
out-of-range IndexError, and whenever the non-emptiness invariant holds that
access never fails (no IndexError can be produced). -/
theorem c10_representative_access (cfg : CodeStyleConfig) (p : Pattern) :
    (p.all_vars = [] → render_pattern cfg p = .error .indexError) ∧
    (p.all_vars ≠ [] → render_pattern cfg p ≠ .error .indexError) := by
  constructor
  · intro h
    unfold render_pattern
    rw [h]
    rfl
  · intro hne hcontra
    unfold render_pattern at hcontra
    cases hgd : generate_declarations p.all_vars with
    | error e =>
      rw [hgd] at hcontra
      obtain ⟨w, _, hwe⟩ := generate_declarations_error_exists p.all_vars e hgd
      have he : e = .notImplemented := generate_declaration_error_eq hwe
      rw [he] at hcontra
      simp at hcontra
    | ok ds =>
      rw [hgd] at hcontra
      cases hv : p.all_vars with
      | nil => exact hne hv
      | cons rep rest =>
        rw [hv] at hcontra
        cases p with
        | singular vs =>
          simp at hcontra
        | parallel vs =>
          dsimp only at hcontra
          cases hfi : rep.first_index with
          | none => rw [hfi] at hcontra; simp at hcontra
          | some d => rw [hfi] at hcontra; simp at hcontra
        | twoDimensional vs =>
          dsimp only at hcontra
          cases hsi : rep.second_index with
          | none => rw [hsi] at hcontra; simp at hcontra
          | some d2 =>
            rw [hsi] at hcontra
            dsimp only at hcontra
            cases hfi : rep.first_index with
            | none => rw [hfi] at hcontra; simp at hcontra
            | some d1 => rw [hfi] at hcontra; simp at hcontra
        | other vs =>
          simp at hcontra

/-- C10 witness: the theorem evaluated at an empty singular pattern, where
rendering indeed fails with the IndexError. -/
theorem c10_witness :
    render_pattern ⟨fun _ => "  "⟩ (.singular []) = .error .indexError :=
  (c10_representative_access ⟨fun _ => "  "⟩ (.singular [])).1 rfl

/-- C2: the declaration synthesizer emits a mutable scalar declaration
(`var`, no initializer) for a zero-dimensional Variable; for one and two
dimensions it emits an immutable-reference declaration (`val`) of a newly
allocated container sized by the index length expression(s) with every element
initialized to the type's default value (0.0 for float, the Long zero literal
0L for int, the empty string for string), the outer dimension sized by
`first_index` and the inner by `second_index`. -/
theorem c2_declaration_synthesis (name : String) (t : VType) :
    generate_declaration ⟨name, t, []⟩ =
      .ok ("var " ++ name ++ ": " ++ convert_type t) ∧
    (∀ d1 : Dimension,
      generate_declaration ⟨name, t, [d1]⟩ =
        .ok ("val " ++ name ++ " = " ++
          ("Array((" ++ d1.get_length ++ ").toInt())" ++ "\x7b" ++
            get_default_value_for_type t ++ "\x7d"))) ∧
    (∀ d1 d2 : Dimension,
      generate_declaration ⟨name, t, [d1, d2]⟩ =
        .ok ("val " ++ name ++ " = " ++
          ("Array((" ++ d1.get_length ++ ").toInt())" ++ "\x7b" ++
            ("Array((" ++ d2.get_length ++ ").toInt())" ++ "\x7b" ++
              get_default_value_for_type t ++ "\x7d") ++ "\x7d"))) ∧
    get_default_value_for_type .float = "0.0" ∧
    get_default_value_for_type .int = "0L" ∧
    get_default_value_for_type .str = "\"\"" := by
  exact ⟨rfl, fun d1 => rfl, fun d1 d2 => rfl, rfl, rfl, rfl⟩

/-- C5: the generated input statement assigns the back end's read expression
for the variable's type (float reads nextDouble, int reads nextLong, string
reads next) to the variable's name indexed by the loop counters in nesting
order: no index for a scalar, the `first_index` axis indexed by `i` and the
`second_index` axis by `j`. -/
theorem c5_input_statement (name : String) (t : VType) :
    input_code_for_var ⟨name, t, []⟩ = name ++ " = " ++ spec_read_expression t ∧
    (∀ d1 : Dimension,
      input_code_for_var ⟨name, t, [d1]⟩ =
        name ++ "[(i).toInt()]" ++ " = " ++ spec_read_expression t) ∧
    (∀ d1 d2 : Dimension,
      input_code_for_var ⟨name, t, [d1, d2]⟩ =
        name ++ "[(i).toInt()]" ++ "[(j).toInt()]" ++ " = " ++ spec_read_expression t) ∧
    spec_read_expression .float = "sc.nextDouble()" ∧
    spec_read_expression .int = "sc.nextLong()" ∧
    spec_read_expression .str = "sc.next()" := by
  refine ⟨?_, fun d1 => ?_, fun d1 d2 => ?_, rfl, rfl, rfl⟩ <;>
    cases t <;>
      (refine String.ext ?_ ;
       simp [input_code_for_var, get_var_name, Variable.dim_num, spec_read_expression,
         String.data_append, List.append_assoc])

/-- C9: the problem constants (modulus, yes-literal, no-literal) are forwarded
verbatim into the template context built by `main`, alongside the generated
code parameters, for every input on which `main` reaches the render step —
whether or not prediction succeeded. -/
theorem c9_constants_forwarded (args : CodeGenArgs) (ctx : TemplateContext)
    (h : main_template_context args = .ok ctx) :
    ctx.mod = args.constants.mod ∧ ctx.yes_str = args.constants.yes_str ∧
    ctx.no_str = args.constants.no_str ∧
    generate_parameters args.config args.format = .ok ctx.params := by
  unfold main_template_context at h
  cases hg : generate_parameters args.config args.format with
  | error e =>
    rw [hg] at h
    exact Except.noConfusion h
  | ok ps =>
    rw [hg] at h
    dsimp only at h
    injection h with h1
    subst h1
    exact ⟨rfl, rfl, rfl, rfl⟩

/-- C9 witness: a concrete run with an absent format (prediction failed)
still forwards the constants verbatim. -/
theorem c9_witness :
    (TemplateContext.mk "1000000007" "Yes" "No" ⟨false, none, none, none⟩).mod =
      (ProblemConstants.mk "1000000007" "Yes" "No").mod ∧
    (TemplateContext.mk "1000000007" "Yes" "No" ⟨false, none, none, none⟩).yes_str =
      (ProblemConstants.mk "1000000007" "Yes" "No").yes_str ∧
    (TemplateContext.mk "1000000007" "Yes" "No" ⟨false, none, none, none⟩).no_str =
      (ProblemConstants.mk "1000000007" "Yes" "No").no_str ∧
    generate_parameters ⟨fun _ => "  "⟩ none =
      .ok (TemplateContext.mk "1000000007" "Yes" "No" ⟨false, none, none, none⟩).params :=
  c9_constants_forwarded
    ⟨"template", none, ⟨"1000000007", "Yes", "No"⟩, ⟨fun _ => "  "⟩⟩
    (TemplateContext.mk "1000000007" "Yes" "No" ⟨false, none, none, none⟩)
    (by rfl)

/-- C6: formalArguments is the comma-joined list of `name: declaredType`
entries and actualArguments the comma-joined list of names, both in exactly
`Format.all_vars()` order, with one entry per variable (no reordering, no
deduplication) and positionally consistent: the k-th entry of each list is
built from the k-th variable. -/
theorem c6_argument_lists (f : Format) :
    formal_arguments f = String.intercalate ", "
        (f.all_vars.map (fun v => v.name ++ ": " ++ get_declaration_type v)) ∧
    actual_arguments f = String.intercalate ", " (f.all_vars.map (fun v => v.name)) ∧
    (f.all_vars.map (fun v => v.name ++ ": " ++ get_declaration_type v)).length =
      f.all_vars.length ∧
    (f.all_vars.map (fun v => v.name)).length = f.all_vars.length ∧
    ∀ k, ∀ h : k < f.all_vars.length,
      (f.all_vars.map (fun v => v.name ++ ": " ++ get_declaration_type v))[k]? =
        some ((f.all_vars.get ⟨k, h⟩).name ++ ": " ++
          get_declaration_type (f.all_vars.get ⟨k, h⟩)) ∧
      (f.all_vars.map (fun v => v.name))[k]? = some (f.all_vars.get ⟨k, h⟩).name := by
  refine ⟨rfl, rfl, List.length_map _ _, List.length_map _ _, fun k h => ⟨?_, ?_⟩⟩ <;>
    simp [List.getElem?_map, List.getElem?_eq_getElem h]

/-- C6 witness: the positional statement evaluated on a concrete two-variable
format. -/
theorem c6_witness :
    ((Format.mk [Pattern.singular [⟨"N", VType.int, []⟩],
        Pattern.singular [⟨"s", VType.str, []⟩]]).all_vars.map (fun v => v.name))[1]? =
      some ((Format.mk [Pattern.singular [⟨"N", VType.int, []⟩],
        Pattern.singular [⟨"s", VType.str, []⟩]]).all_vars.get ⟨1, by decide⟩).name :=
  ((c6_argument_lists (Format.mk [Pattern.singular [⟨"N", VType.int, []⟩],
      Pattern.singular [⟨"s", VType.str, []⟩]])).2.2.2.2 1 (by decide)).2

theorem takeWhile_append_all {p : Char → Bool} : ∀ (l1 l2 : List Char),
    l1.all p = true → (l1 ++ l2).takeWhile p = l1 ++ l2.takeWhile p := by
  intro l1
  induction l1 with
  | nil => simp
  | cons a l ih =>
    intro l2 h
    rw [List.all_cons, Bool.and_eq_true] at h
    rw [List.cons_append, List.takeWhile_cons_of_pos h.1, ih l2 h.2, List.cons_append]

theorem leading_whitespace_append_left (a b : String)
    (ha : a.data.all (fun c => c == ' ' || c == '\t') = true) :
    leading_whitespace (a ++ b) = a.length + leading_whitespace b := by
  unfold leading_whitespace
  rw [String.data_append, takeWhile_append_all _ _ ha, List.length_append]
  rfl

theorem leading_whitespace_for_i (x : String) :
    leading_whitespace ("for (i in 0 until " ++ x ++ ") \x7b") = 0 := by
  unfold leading_whitespace
  rw [String.data_append, String.data_append]
  rw [show "for (i in 0 until ".data = 'f' :: "or (i in 0 until ".data from rfl]
  simp only [List.cons_append]
  rw [List.takeWhile_cons_of_neg (by decide)]
  rfl

theorem leading_whitespace_for_j (x : String) :
    leading_whitespace ("for (j in 0 until " ++ x ++ ") \x7b") = 0 := by
  unfold leading_whitespace
  rw [String.data_append, String.data_append]
  rw [show "for (j in 0 until ".data = 'f' :: "or (j in 0 until ".data from rfl]
  simp only [List.cons_append]
  rw [List.takeWhile_cons_of_neg (by decide)]
  rfl

theorem wrap_wrap_explicit (cfg : CodeStyleConfig) (reads : List String)
    (l1 l2 : String) :
    wrap_with_loop cfg (wrap_with_loop cfg reads "j" l2) "i" l1 =
      ("for (i in 0 until " ++ l1 ++ ") \x7b") ::
      (cfg.indent 1 ++ ("for (j in 0 until " ++ l2 ++ ") \x7b")) ::
      (reads.map (fun line => cfg.indent 1 ++ (cfg.indent 1 ++ line)) ++
        [cfg.indent 1 ++ "\x7d", "\x7d"]) := by
  unfold wrap_with_loop
  rw [show ("for (" ++ "i" ++ " in 0 until " : String) = "for (i in 0 until " from rfl,
    show ("for (" ++ "j" ++ " in 0 until " : String) = "for (j in 0 until " from rfl]
  simp [List.map_cons, List.map_append, List.map_map, Function.comp]

/-- C1: rendering a TwoDimensionalPattern emits the declarations first,
outside any loop, then the read statements wrapped in a `j` loop over the
second dimension's length, that block wrapped in an `i` loop over the first
dimension's length; with a nonempty whitespace indent unit the `j` loop
header is indented strictly more than the `i` loop header, and the `i` loop's
closer comes after the `j` loop's closer. -/
theorem c1_two_dimensional_nesting (cfg : CodeStyleConfig) (v : Variable)
    (rest : List Variable) (d1 d2 : Dimension)
    (hv : v.indices = [d1, d2])
    (hall : ∀ w ∈ v :: rest, w.dim_num ≤ 2) :
    ∃ decls, generate_declarations (v :: rest) = .ok decls ∧
      render_pattern cfg (.twoDimensional (v :: rest)) =
        .ok (decls ++
          ("for (i in 0 until " ++ d1.get_length ++ ") \x7b") ::
          (cfg.indent 1 ++ ("for (j in 0 until " ++ d2.get_length ++ ") \x7b")) ::
          (((v :: rest).map input_code_for_var).map
              (fun line => cfg.indent 1 ++ (cfg.indent 1 ++ line)) ++
            [cfg.indent 1 ++ "\x7d", "\x7d"])) ∧
      ((cfg.indent 1).data.all (fun c => c == ' ' || c == '\t') = true →
        0 < (cfg.indent 1).length →
        leading_whitespace ("for (i in 0 until " ++ d1.get_length ++ ") \x7b") <
          leading_whitespace
            (cfg.indent 1 ++ ("for (j in 0 until " ++ d2.get_length ++ ") \x7b"))) := by
  obtain ⟨decls, hdecls⟩ := generate_declarations_ok_of_forall (v :: rest)
    (fun w hw => generate_declaration_dim_le w (hall w hw))
  have hfi : v.first_index = some d1 := by simp [Variable.first_index, hv]
  have hsi : v.second_index = some d2 := by simp [Variable.second_index, hv]
  refine ⟨decls, hdecls, ?_, ?_⟩
  · unfold render_pattern
    dsimp only [Pattern.all_vars]
    rw [hdecls]
    dsimp only
    rw [hsi]
    dsimp only
    rw [hfi]
    dsimp only
    rw [wrap_wrap_explicit]
  · intro hws hlen
    rw [leading_whitespace_for_i,
      leading_whitespace_append_left _ _ hws, leading_whitespace_for_j]
    omega

/-- C1 witness: the nesting statement evaluated on a concrete grid variable
with a two-space indent unit. -/
theorem c1_witness :
    render_pattern ⟨fun _ => "  "⟩
        (.twoDimensional [⟨"G", VType.int, [⟨"H"⟩, ⟨"W"⟩]⟩]) =
      .ok ["val G = Array((H).toInt())\x7bArray((W).toInt())\x7b0L\x7d\x7d",
        "for (i in 0 until H) \x7b",
        "  for (j in 0 until W) \x7b",
        "    G[(i).toInt()][(j).toInt()] = sc.nextLong()",
        "  \x7d",
        "\x7d"] := by
  obtain ⟨decls, h1, h2, h3⟩ := c1_two_dimensional_nesting ⟨fun _ => "  "⟩
    ⟨"G", VType.int, [⟨"H"⟩, ⟨"W"⟩]⟩ [] ⟨"H"⟩ ⟨"W"⟩ rfl (by decide)
  have h0 : generate_declarations [⟨"G", VType.int, [⟨"H"⟩, ⟨"W"⟩]⟩] =
      .ok ["val G = Array((H).toInt())\x7bArray((W).toInt())\x7b0L\x7d\x7d"] := rfl
  have hd : decls =
      ["val G = Array((H).toInt())\x7bArray((W).toInt())\x7b0L\x7d\x7d"] :=
    (Except.ok.inj (h0.symm.trans h1)).symm
  subst hd
  rw [h2]
  rfl

theorem clean_token_spec (s : String) (h : clean_token s = true) :
    '=' ∉ s.data ∧ '\x7b' ∉ s.data ∧ '\x7d' ∉ s.data := by
  simp [clean_token] at h
  tauto

theorem is_read_line_append_clean (a line : String) (h : clean_token a = true) :
    is_read_line (a ++ line) = is_read_line line := by
  obtain ⟨h1, h2, h3⟩ := clean_token_spec a h
  simp [is_read_line, String.data_append, h1, h2, h3]

theorem is_read_line_ends_brace (x : String) :
    is_read_line (x ++ ") \x7b") = false := by
  simp [is_read_line, String.data_append]

theorem is_read_line_closer : is_read_line "\x7d" = false := by decide

theorem is_read_line_input (v : Variable) (hc : clean_token v.name = true)
    (hd : v.dim_num ≤ 2) : is_read_line (input_code_for_var v) = true := by
  obtain ⟨h1, h2, h3⟩ := clean_token_spec v.name hc
  rcases v with ⟨name, t, idx⟩
  simp only [Variable.dim_num] at hd
  simp only at h1 h2 h3
  rcases idx with _ | ⟨a, _ | ⟨b, _ | ⟨c, l⟩⟩⟩
  · cases t <;>
      simp [input_code_for_var, get_var_name, Variable.dim_num, is_read_line,
        String.data_append, h1, h2, h3]
  · cases t <;>
      simp [input_code_for_var, get_var_name, Variable.dim_num, is_read_line,
        String.data_append, h1, h2, h3]
  · cases t <;>
      simp [input_code_for_var, get_var_name, Variable.dim_num, is_read_line,
        String.data_append, h1, h2, h3]
  · exfalso
    simp at hd

theorem is_read_line_decl (v : Variable) (d : String) (hc : clean_token v.name = true)
    (h : generate_declaration v = .ok d) : is_read_line d = false := by
  obtain ⟨h1, h2, h3⟩ := clean_token_spec v.name hc
  unfold generate_declaration at h
  by_cases hgt : 2 < v.dim_num
  · rw [if_pos hgt] at h
    exact Except.noConfusion h
  · rw [if_neg hgt] at h
    by_cases h0 : v.dim_num = 0
    · rw [if_pos h0] at h
      injection h with hd
      subst hd
      rcases v with ⟨name, t, idx⟩
      simp only [Variable.dim_num] at h0
      simp only at h1 h2 h3
      rw [List.length_eq_zero] at h0
      subst h0
      cases t <;>
        simp [is_read_line, get_declaration_type, Variable.dim_num, wrap_array,
          convert_type, String.data_append, h1, h2, h3]
    · rw [if_neg h0] at h
      dsimp only at h
      injection h with hd
      subst hd
      rcases v with ⟨name, t, idx⟩
      simp only [Variable.dim_num] at h0 hgt
      simp only at h1 h2 h3
      rcases idx with _ | ⟨a, _ | ⟨b, _ | ⟨c, l⟩⟩⟩
      · simp at h0
      · cases t <;>
          simp [is_read_line, Variable.second_index, Variable.first_index,
            get_default_value_for_type, String.data_append, h1, h2, h3]
      · cases t <;>
          simp [is_read_line, Variable.second_index, Variable.first_index,
            get_default_value_for_type, String.data_append, h1, h2, h3]
      · exfalso
        simp at hgt

theorem filter_decls_nil (vars : List Variable) (decls : List String)
    (hgd : generate_declarations vars = .ok decls)
    (hclean : ∀ w ∈ vars, clean_token w.name = true) :
    decls.filter is_read_line = [] := by
  rw [List.filter_eq_nil_iff]
  intro d hd
  obtain ⟨w, hw, hwd⟩ := generate_declarations_mem vars decls hgd d hd
  simp [is_read_line_decl w d (hclean w hw) hwd]

theorem filter_indented_reads (cfg : CodeStyleConfig) (vars : List Variable)
    (hind : clean_token (cfg.indent 1) = true)
    (hv : ∀ w ∈ vars, clean_token w.name = true ∧ w.dim_num ≤ 2) :
    ((vars.map input_code_for_var).map (fun line => cfg.indent 1 ++ line)).filter
        is_read_line =
      (vars.map input_code_for_var).map (fun line => cfg.indent 1 ++ line) := by
  rw [List.filter_eq_self]
  intro a ha
  rw [List.mem_map] at ha
  obtain ⟨r, hr, rfl⟩ := ha
  rw [List.mem_map] at hr
  obtain ⟨w, hw, rfl⟩ := hr
  rw [is_read_line_append_clean _ _ hind]
  exact is_read_line_input w (hv w hw).1 (hv w hw).2

theorem filter_double_indented_reads (cfg : CodeStyleConfig) (vars : List Variable)
    (hind : clean_token (cfg.indent 1) = true)
    (hv : ∀ w ∈ vars, clean_token w.name = true ∧ w.dim_num ≤ 2) :
    ((vars.map input_code_for_var).map
        (fun line => cfg.indent 1 ++ (cfg.indent 1 ++ line))).filter is_read_line =
      (vars.map input_code_for_var).map
        (fun line => cfg.indent 1 ++ (cfg.indent 1 ++ line)) := by
  rw [List.filter_eq_self]
  intro a ha
  rw [List.mem_map] at ha
  obtain ⟨r, hr, rfl⟩ := ha
  rw [List.mem_map] at hr
  obtain ⟨w, hw, rfl⟩ := hr
  rw [is_read_line_append_clean _ _ hind, is_read_line_append_clean _ _ hind]
  exact is_read_line_input w (hv w hw).1 (hv w hw).2

/-- C7: for every supported Pattern satisfying the Pattern-model invariants
(Singular: exactly one scalar Variable; Parallel: nonempty, all
one-dimensional; TwoDimensional: nonempty, all two-dimensional) and
well-formed identifiers and indent unit, the rendered output contains exactly
as many read-assignment statements as the Pattern has Variables, regardless
of the loop nesting. -/
theorem c7_read_count (cfg : CodeStyleConfig)
    (hind : clean_token (cfg.indent 1) = true) :
    (∀ v : Variable, clean_token v.name = true → v.dim_num = 0 →
      ∃ out, render_pattern cfg (.singular [v]) = .ok out ∧
        (out.filter is_read_line).length = (Pattern.singular [v]).all_vars.length) ∧
    (∀ v rest, (∀ w ∈ v :: rest, clean_token w.name = true ∧ w.dim_num = 1) →
      ∃ out, render_pattern cfg (.parallel (v :: rest)) = .ok out ∧
        (out.filter is_read_line).length =
          (Pattern.parallel (v :: rest)).all_vars.length) ∧
    (∀ v rest, (∀ w ∈ v :: rest, clean_token w.name = true ∧ w.dim_num = 2) →
      ∃ out, render_pattern cfg (.twoDimensional (v :: rest)) = .ok out ∧
        (out.filter is_read_line).length =
          (Pattern.twoDimensional (v :: rest)).all_vars.length) := by
  refine ⟨?_, ?_, ?_⟩
  · intro v hcv hd0
    obtain ⟨dv, hdv⟩ := generate_declaration_dim_le v (by omega)
    have hgds : generate_declarations [v] = .ok [dv] := by
      unfold generate_declarations
      rw [hdv]
      rfl
    refine ⟨[dv, input_code_for_var v], ?_, ?_⟩
    · unfold render_pattern
      dsimp only [Pattern.all_vars]
      rw [hgds]
      rfl
    · have hrd : is_read_line dv = false := is_read_line_decl v dv hcv hdv
      have hri : is_read_line (input_code_for_var v) = true :=
        is_read_line_input v hcv (by omega)
      simp [List.filter_cons, hrd, hri, Pattern.all_vars]
  · intro v rest hall
    have hclean : ∀ w ∈ v :: rest, clean_token w.name = true :=
      fun w hw => (hall w hw).1
    have hdle : ∀ w ∈ v :: rest, w.dim_num ≤ 2 := by
      intro w hw
      have := (hall w hw).2
      omega
    obtain ⟨decls, hdecls⟩ := generate_declarations_ok_of_forall _
      (fun w hw => generate_declaration_dim_le w (hdle w hw))
    have hd1 : v.dim_num = 1 := (hall v (List.mem_cons_self v rest)).2
    obtain ⟨a, ha⟩ := List.length_eq_one.mp hd1
    have hfi : v.first_index = some a := by simp [Variable.first_index, ha]
    refine ⟨decls ++
      wrap_with_loop cfg ((v :: rest).map input_code_for_var) "i" a.get_length,
      ?_, ?_⟩
    · unfold render_pattern
      dsimp only [Pattern.all_vars]
      rw [hdecls]
      dsimp only
      rw [hfi]
    · have h1 : decls.filter is_read_line = [] :=
        filter_decls_nil _ _ hdecls hclean
      have h2 := filter_indented_reads cfg (v :: rest) hind
        (fun w hw => ⟨hclean w hw, hdle w hw⟩)
      have hh : ¬ is_read_line
          ("for (" ++ "i" ++ " in 0 until " ++ a.get_length ++ ") \x7b") = true := by
        rw [is_read_line_ends_brace]
        simp
      unfold wrap_with_loop
      rw [List.filter_append, h1, List.nil_append,
        List.filter_cons_of_neg hh, List.filter_append, h2]
      rw [show List.filter is_read_line ["\x7d"] = [] from by
        simp [List.filter_cons, is_read_line_closer]]
      simp [Pattern.all_vars]
  · intro v rest hall
    have hclean : ∀ w ∈ v :: rest, clean_token w.name = true :=
      fun w hw => (hall w hw).1
    have hdle : ∀ w ∈ v :: rest, w.dim_num ≤ 2 := by
      intro w hw
      have := (hall w hw).2
      omega
    obtain ⟨decls, hdecls⟩ := generate_declarations_ok_of_forall _
      (fun w hw => generate_declaration_dim_le w (hdle w hw))
    have hd2 : v.dim_num = 2 := (hall v (List.mem_cons_self v rest)).2
    obtain ⟨a, b, hab⟩ := List.length_eq_two.mp hd2
    have hfi : v.first_index = some a := by simp [Variable.first_index, hab]
    have hsi : v.second_index = some b := by simp [Variable.second_index, hab]
    refine ⟨decls ++
      wrap_with_loop cfg
        (wrap_with_loop cfg ((v :: rest).map input_code_for_var) "j" b.get_length)
        "i" a.get_length, ?_, ?_⟩
    · unfold render_pattern
      dsimp only [Pattern.all_vars]
      rw [hdecls]
      dsimp only
      rw [hsi]
      dsimp only
      rw [hfi]
    · have h1 : decls.filter is_read_line = [] :=
        filter_decls_nil _ _ hdecls hclean
      have h2 := filter_double_indented_reads cfg (v :: rest) hind
        (fun w hw => ⟨hclean w hw, hdle w hw⟩)
      have hhi : ¬ is_read_line
          ("for (i in 0 until " ++ a.get_length ++ ") \x7b") = true := by
        rw [is_read_line_ends_brace]
        simp
      have hhj : ¬ is_read_line
          (cfg.indent 1 ++ ("for (j in 0 until " ++ b.get_length ++ ") \x7b")) = true := by
        rw [is_read_line_append_clean _ _ hind, is_read_line_ends_brace]
        simp
      rw [wrap_wrap_explicit]
      rw [List.filter_append, h1, List.nil_append,
        List.filter_cons_of_neg hhi, List.filter_cons_of_neg hhj,
        List.filter_append, h2]
      rw [show List.filter is_read_line [cfg.indent 1 ++ "\x7d", "\x7d"] = [] from by
        simp [List.filter_cons, is_read_line_closer,
          is_read_line_append_clean _ _ hind]]
      simp [Pattern.all_vars]

/-- C7 witness: the count statement evaluated on a concrete one-variable
parallel pattern. -/
theorem c7_witness :
    ∃ out, render_pattern ⟨fun _ => "  "⟩
        (.parallel [⟨"A", VType.int, [⟨"N"⟩]⟩]) = .ok out ∧
      (out.filter is_read_line).length =
        (Pattern.parallel [⟨"A", VType.int, [⟨"N"⟩]⟩]).all_vars.length :=
  (c7_read_count ⟨fun _ => "  "⟩ (by decide)).2.1 ⟨"A", VType.int, [⟨"N"⟩]⟩ []
    (by decide)
